import Mathlib

/-!
Verification development for the bexio manual-entry posting app (`src/app.py`).

The Python source is shallowly embedded:

* strings are Lean `String`s, manipulated through their `List Char` data so
  that every operation is kernel-computable;
* Python dicts used as mappings (`acct_map`, `curr_map`, the OAuth token dict)
  become association lists / a record of optional fields;
* `time.time()` becomes an explicit integer timestamp argument;
* HTTP calls become explicit response values passed in as parameters, and an
  exception raised by `raise_for_status()` becomes an explicit outcome value;
* `int(...)` becomes `parsePyInt` (optional sign, ASCII digits with Python's
  underscore grouping rules, surrounding whitespace allowed).
-/

/-- Whitespace characters stripped by Python's `str.strip()` and matched by
the regex class in the source (space, tab, LF, VT, FF, CR). -/
def isWS (c : Char) : Bool :=
  decide (c.toNat = 32 ∨ c.toNat = 9 ∨ c.toNat = 10 ∨ c.toNat = 13 ∨
    c.toNat = 11 ∨ c.toNat = 12)

/-- ASCII decimal digit test, as used by Python's `int()`. -/
def isDigitChar (c : Char) : Bool :=
  decide (48 ≤ c.toNat ∧ c.toNat ≤ 57)

/-- Numeric value of an ASCII digit. -/
def digitVal (c : Char) : Nat := c.toNat - 48

/-- Python `str.upper()` on one ASCII character: letters `a`-`z` (codes
97-122) are shifted down by 32, everything else is unchanged. -/
def pyCharUpper (c : Char) : Char :=
  if 97 ≤ c.toNat ∧ c.toNat ≤ 122 then Char.ofNat (c.toNat - 32) else c

/-- Strip leading and trailing whitespace from a character list
(Python `str.strip()`). -/
def stripChars (l : List Char) : List Char :=
  ((l.dropWhile isWS).reverse.dropWhile isWS).reverse

/-- Python `str.strip()`. -/
def pyStrip (s : String) : String := String.mk (stripChars s.data)

/-- Python `str.upper()` (ASCII fragment). -/
def pyUpper (s : String) : String := String.mk (s.data.map pyCharUpper)

/-- Python `str.startswith(pre)`. -/
def pyStartsWith (pre s : String) : Bool :=
  s.data.take pre.data.length == pre.data

/-- Tail of a digit run in Python's `int()` grammar: digits, with single
underscores allowed only between two digits. -/
def usDigitsTail : List Char → Bool
  | [] => true
  | c :: rest =>
    if isDigitChar c then usDigitsTail rest
    else if c = '_' then
      match rest with
      | [] => false
      | d :: rest2 => isDigitChar d && usDigitsTail rest2
    else false

/-- A valid digit run for Python's `int()`: nonempty, starts with a digit,
underscores only between digits. -/
def validDigitRun (l : List Char) : Bool :=
  match l with
  | [] => false
  | c :: rest => isDigitChar c && usDigitsTail rest

/-- Decimal value of a digit list. -/
def natOfDigits (l : List Char) : Nat :=
  l.foldl (fun acc c => acc * 10 + digitVal c) 0

/-- Digit-run parser: value of the run if it is valid for `int()`. -/
def digitsToNat (l : List Char) : Option Nat :=
  if validDigitRun l then some (natOfDigits (l.filter isDigitChar)) else none

/-- Python `int(s)` for base 10: strips surrounding whitespace, allows one
leading sign, then a digit run; `none` models the `ValueError` raised on
any other input. -/
def parsePyInt (s : String) : Option Int :=
  match stripChars s.data with
  | [] => none
  | c :: rest =>
    if c = '+' then (digitsToNat rest).map (fun n => (n : Int))
    else if c = '-' then (digitsToNat rest).map (fun n => -(n : Int))
    else (digitsToNat (c :: rest)).map (fun n => (n : Int))

/-!  Python dict fragment: association list with in-place update, which is
exactly the observable behaviour of `dict.__setitem__` / `__getitem__` /
`in` for string keys. -/

/-- Python `m[k] = v`: replace the value at the first occurrence of `k`,
or append a fresh entry. -/
def dictInsert (m : List (String × String)) (k v : String) :
    List (String × String) :=
  match m with
  | [] => [(k, v)]
  | p :: rest => if p.1 == k then (k, v) :: rest else p :: dictInsert rest k v

/-- Python `m[k]` / `k in m`: first entry with key `k`, if any. -/
def dictGet (m : List (String × String)) (k : String) : Option String :=
  match m.find? (fun p => p.1 == k) with
  | some p => some p.2
  | none => none

/-!  Token store (`st.session_state.oauth`).  The Python code keeps the raw
token-endpoint JSON dict; the fields it ever reads are `access_token`,
`refresh_token`, `expires_in` and the computed `expires_at`, so the dict is
embedded as a record of those optional fields, all absent for the initial
empty dict `{}`. -/

/-- Token dict held in `st.session_state.oauth`. -/
structure TokenDict where
  access_token : Option String := none
  refresh_token : Option String := none
  expires_in : Option Int := none
  expires_at : Option Int := none
deriving DecidableEq

/-- Python truthiness of the oauth dict: the empty dict `{}` is falsy.  In
this embedding the dict is empty iff every field it could hold is absent. -/
def TokenDict.isEmpty (t : TokenDict) : Bool :=
  t.access_token.isNone && t.refresh_token.isNone &&
    t.expires_in.isNone && t.expires_at.isNone

/-- Python truthiness of `dict.get("refresh_token")`: falsy when the key is
absent or maps to the empty string. -/
def truthyStr : Option String → Bool
  | none => false
  | some s => !s.data.isEmpty

/-- Embedding of `save_tokens` (src/app.py lines 42-44): stamp
`expires_at = now + int(tokens.get("expires_in", 3600)) - 30` onto the
token dict and store the whole dict. -/
def save_tokens (now : Int) (tokens : TokenDict) : TokenDict :=
  { tokens with expires_at := some (now + tokens.expires_in.getD 3600 - 30) }

/-- Embedding of `need_login` (src/app.py lines 46-47):
`not oauth or time.time() > oauth.get("expires_at", 0)`. -/
def need_login (st : TokenDict) (now : Int) : Bool :=
  TokenDict.isEmpty st || decide (now > st.expires_at.getD 0)

/-- Parsed JSON of one token-endpoint HTTP response. -/
structure TokenResp where
  status : Nat
  tokens : TokenDict
deriving DecidableEq

/-- Observable outcome of `refresh_access_token`: silent early return (no
refresh token held), an exception propagated from `raise_for_status()`, or
a successful refresh. -/
inductive RefreshOutcome where
  | noop
  | raised (status : Nat)
  | refreshed
deriving DecidableEq

/-- Status codes for which `requests.Response.raise_for_status()` raises
`HTTPError` (4xx and 5xx). -/
def raisesStatus (s : Nat) : Bool := decide (400 ≤ s) && decide (s < 600)

/-- Embedding of `refresh_access_token` (src/app.py lines 49-61).  The token
endpoint's response is passed in explicitly; the function returns the new
stored token dict together with the observable outcome. -/
def refresh_access_token (now : Int) (resp : TokenResp) (st : TokenDict) :
    TokenDict × RefreshOutcome :=
  if !truthyStr st.refresh_token then (st, RefreshOutcome.noop)
  else if raisesStatus resp.status then (st, RefreshOutcome.raised resp.status)
  else (save_tokens now resp.tokens, RefreshOutcome.refreshed)

/-!  Mapping resolver (`resolve_account_id`, `resolve_currency_id`,
src/app.py lines 112-130).  The two Python functions are line-for-line
identical except for the lookup key (account: `strip()`; currency:
`strip().upper()`) and the German message carried by the positivity
`ValueError`; the shared body is factored into `resolveCore`. -/

/-- ValueErrors raised by the resolvers: `int()` failing on a non-numeric
string, or the explicit "muss > 0 sein" check. -/
inductive ResolveErr where
  | notAnInt (s : String)
  | nonPositive
deriving DecidableEq

/-- Decidable equality for `Except`, used to evaluate resolver and date
results on concrete inputs. -/
instance {ε α : Type} [DecidableEq ε] [DecidableEq α] :
    DecidableEq (Except ε α) := fun x y =>
  match x, y with
  | Except.ok a, Except.ok b =>
    if h : a = b then isTrue (by rw [h])
    else isFalse (by intro hc; cases hc; exact h rfl)
  | Except.error e, Except.error f =>
    if h : e = f then isTrue (by rw [h])
    else isFalse (by intro hc; cases hc; exact h rfl)
  | Except.ok _, Except.error _ => isFalse (by intro hc; cases hc)
  | Except.error _, Except.ok _ => isFalse (by intro hc; cases hc)

/-- Shared body of the two resolvers, applied to the computed lookup key
`s`: if `s` is a mapping key return `int(mapping[s])` unchecked, otherwise
`int(s)` guarded by the `val <= 0` check. -/
def resolveCore (m : List (String × String)) (s : String) :
    Except ResolveErr Int :=
  match dictGet m s with
  | some v =>
    match parsePyInt v with
    | some n => Except.ok n
    | none => Except.error (ResolveErr.notAnInt v)
  | none =>
    match parsePyInt s with
    | some val =>
      if val ≤ 0 then Except.error ResolveErr.nonPositive else Except.ok val
    | none => Except.error (ResolveErr.notAnInt s)

/-- Embedding of `resolve_account_id` (src/app.py lines 112-121):
key is `str(user_value).strip()`, looked up verbatim (no case folding). -/
def resolve_account_id (m : List (String × String)) (user_value : String) :
    Except ResolveErr Int :=
  resolveCore m (pyStrip user_value)

/-- Embedding of `resolve_currency_id` (src/app.py lines 123-130):
key is `str(user_value).strip().upper()`. -/
def resolve_currency_id (m : List (String × String)) (user_value : String) :
    Except ResolveErr Int :=
  resolveCore m (pyUpper (pyStrip user_value))

/-!  Date normalization (`normalize_iso_date`, src/app.py lines 132-138). -/

/-- Input to `normalize_iso_date`: a structured `datetime.date` (as produced
by the date picker) or a raw string. -/
inductive DateVal where
  | structured (y m d : Nat)
  | raw (s : String)

/-- The ValueError raised for a malformed date, carrying the offending
input. -/
inductive DateErr where
  | invalidDate (orig : String)
deriving DecidableEq

/-- Zero-pad to two digits, as `date.isoformat()` does for month and day. -/
def pad2 (n : Nat) : String :=
  if n < 10 then "0" ++ toString n else toString n

/-- Zero-pad to four digits, as `date.isoformat()` does for the year. -/
def pad4 (n : Nat) : String :=
  if n < 10 then "000" ++ toString n
  else if n < 100 then "00" ++ toString n
  else if n < 1000 then "0" ++ toString n
  else toString n

/-- Python `datetime.date.isoformat()`: `YYYY-MM-DD`. -/
def isoformat (y m d : Nat) : String :=
  pad4 y ++ "-" ++ pad2 m ++ "-" ++ pad2 d

/-- Replacement `"/" -> "-"` from `str.replace("/", "-")`. -/
def dashForSlash (c : Char) : Char := if c = '/' then '-' else c

/-- Replacement `"." -> "-"` from `str.replace(".", "-")`. -/
def dashForDot (c : Char) : Char := if c = '.' then '-' else c

/-- The anchored regex `^\d{4}-\d{2}-\d{2}$` from the source, as a direct
shape check on the character list. -/
def matchesISODate (l : List Char) : Bool :=
  match l with
  | [a, b, c, d, e, f, g, h, i, j] =>
    isDigitChar a && isDigitChar b && isDigitChar c && isDigitChar d &&
      e == '-' && isDigitChar f && isDigitChar g && h == '-' &&
      isDigitChar i && isDigitChar j
  | _ => false

/-- Embedding of `normalize_iso_date` (src/app.py lines 132-138): a
structured date is returned via `isoformat()`; a string is stripped, has
`/` and `.` replaced by `-`, and must then match `^\d{4}-\d{2}-\d{2}$`,
else the ValueError (modelled as `DateErr.invalidDate`) is raised. -/
def normalize_iso_date : DateVal → Except DateErr String
  | DateVal.structured y m d => Except.ok (isoformat y m d)
  | DateVal.raw s0 =>
    let s := ((stripChars s0.data).map dashForSlash).map dashForDot
    if matchesISODate s then Except.ok (String.mk s)
    else Except.error (DateErr.invalidDate s0)

/-!  Mapping text parser (`_parse_mapping`, src/app.py lines 95-110).

The splitting regex is `re.split(r"\s*[:=,;\s]\s*", s)` followed by
discarding empty parts.  Every match of that pattern consumes only
separator characters (whitespace, `:`, `=`, `,`, `;`) and at least one of
them, and no separator character can survive outside a match, so after the
empty parts are discarded the result is exactly the list of maximal runs of
non-separator characters.  `tokenize` below computes those runs directly. -/

/-- Characters consumed by the splitting regex `\s*[:=,;\s]\s*`:
whitespace or one of `:` `=` `,` `;`. -/
def isSepChar (c : Char) : Bool :=
  isWS c || decide (c.toNat = 58 ∨ c.toNat = 61 ∨ c.toNat = 44 ∨ c.toNat = 59)

/-- One step of splitting a character list at separator characters. -/
def splitSepAux (c : Char) (acc : List (List Char)) : List (List Char) :=
  match acc with
  | [] => if isSepChar c then [[]] else [[c]]
  | t :: ts => if isSepChar c then [] :: t :: ts else (c :: t) :: ts

/-- Split a character list at separator characters (empty runs included). -/
def splitSep (l : List Char) : List (List Char) := l.foldr splitSepAux [[]]

/-- The filtered regex split from the source: maximal nonempty runs of
non-separator characters. -/
def tokenize (s : String) : List String :=
  ((splitSep s.data).filter (fun t => !t.isEmpty)).map String.mk

/-- One step of splitting a character list at newlines. -/
def splitNLAux (c : Char) (acc : List (List Char)) : List (List Char) :=
  match acc with
  | [] => if c = '\n' then [[]] else [[c]]
  | t :: ts => if c = '\n' then [] :: t :: ts else (c :: t) :: ts

/-- Split a character list at newline characters. -/
def splitNL (l : List Char) : List (List Char) := l.foldr splitNLAux [[]]

/-- Python `str.splitlines()` for LF-separated text: split at `\n`, with no
empty final line for a trailing newline (and `[]` for the empty string). -/
def pySplitlines (s : String) : List String :=
  let parts := splitNL s.data
  (match parts.getLast? with
   | some t => if t.isEmpty then parts.dropLast else parts
   | none => parts).map String.mk

/-- Classification of one input line by the loop body of `_parse_mapping`:
skipped (blank or comment), accepted with a key/value pair, or rejected.
The loop body depends only on the line itself, never on the accumulated
mapping, so it is factored out as this pure classifier. -/
inductive LineClass where
  | skip
  | accept (k v : String)
  | reject
deriving DecidableEq

/-- Loop body of `_parse_mapping` (src/app.py lines 98-109) for one line:
strip; skip blanks and `#`/`//` comments; split into parts and reject
unless exactly two; strip both parts, upper-case the key when `upperKeys`;
reject empty key or value; otherwise accept the pair. -/
def classifyLine (upperKeys : Bool) (line : String) : LineClass :=
  let s := pyStrip line
  if s.data.isEmpty || pyStartsWith "#" s || pyStartsWith "//" s then
    LineClass.skip
  else
    match tokenize s with
    | [p1, p2] =>
      let k0 := pyStrip p1
      let v := pyStrip p2
      let k := if upperKeys then pyUpper k0 else k0
      if k.data.isEmpty || v.data.isEmpty then LineClass.reject
      else LineClass.accept k v
    | _ => LineClass.reject

/-- Main loop of `_parse_mapping`: thread the mapping dict and the `bad`
list through the numbered lines. -/
def parseMappingGo (upperKeys : Bool) :
    List (Nat × String) → List (String × String) → List (Nat × String) →
      List (String × String) × List (Nat × String)
  | [], m, bad => (m, bad)
  | (i, line) :: rest, m, bad =>
    match classifyLine upperKeys line with
    | LineClass.skip => parseMappingGo upperKeys rest m bad
    | LineClass.accept k v =>
      parseMappingGo upperKeys rest (dictInsert m k v) bad
    | LineClass.reject => parseMappingGo upperKeys rest m (bad ++ [(i, line)])

/-- Embedding of `_parse_mapping` (src/app.py lines 95-110): enumerate the
lines from 1, build the mapping and collect `(line number, original text)`
for rejected lines. -/
def parse_mapping (text : String) (upperKeys : Bool) :
    List (String × String) × List (Nat × String) :=
  parseMappingGo upperKeys (List.enumFrom 1 (pySplitlines text)) [] []

/-- True when the loop body accepts the line. -/
def isAcceptLine (u : Bool) (l : String) : Bool :=
  match classifyLine u l with
  | LineClass.accept _ _ => true
  | _ => false

/-- True when the loop body rejects the line. -/
def isRejectLine (u : Bool) (l : String) : Bool :=
  match classifyLine u l with
  | LineClass.reject => true
  | _ => false

/-- True when the line is neither blank nor a comment (not skipped). -/
def isRelevantLine (u : Bool) (l : String) : Bool :=
  match classifyLine u l with
  | LineClass.skip => false
  | _ => true

/-!  Submission pipeline (the `if submitted:` handler, src/app.py lines
251-267).  The claims concern the create-entry POST, its 401 retry and its
429 handling, so exactly that fragment is embedded.  The sequence of
responses the create-entry endpoint would give to successive POSTs is a
parameter `responses : Nat -> HttpResp`; the requests actually issued are
returned as a trace, which makes "exactly one retry" and "identical body"
statable. -/

/-- One HTTP response from the create-entry endpoint. -/
structure HttpResp where
  status : Nat
  body : String
deriving DecidableEq

/-- One POST request issued to the create-entry endpoint: the bearer token
in its headers and the JSON payload. -/
structure PostReq (α : Type) where
  token : Option String
  payload : α
deriving DecidableEq

/-- Outcome of the submission handler: success page with the response body,
the 429 rate-limit stop, or an `requests.HTTPError` caught by the
surrounding `except` block. -/
inductive SubmitResult where
  | success (body : String)
  | rateLimited
  | httpError (status : Nat)
deriving DecidableEq

/-- Tail of the handler after the (possibly retried) POST: the explicit
429 check and stop, then `raise_for_status()`, then the success path. -/
def finishResponse (r : HttpResp) : SubmitResult :=
  if r.status = 429 then SubmitResult.rateLimited
  else if raisesStatus r.status then SubmitResult.httpError r.status
  else SubmitResult.success r.body

/-- Embedding of src/app.py lines 251-267: POST the payload with the current
access token; on a 401, call `refresh_access_token` (whose raised
`HTTPError`, if any, aborts the submission with no retry) and re-POST the
identical payload once with the then-current token; then apply the 429
check and `raise_for_status()`.  Returns the result, the trace of POSTs
issued, and the final token dict. -/
def submitEntry {α : Type} (payload : α) (now : Int) (tokResp : TokenResp)
    (st : TokenDict) (responses : Nat → HttpResp) :
    SubmitResult × List (PostReq α) × TokenDict :=
  let req0 : PostReq α := { token := st.access_token, payload := payload }
  if (responses 0).status = 401 then
    match refresh_access_token now tokResp st with
    | (st1, RefreshOutcome.raised s) => (SubmitResult.httpError s, [req0], st1)
    | (st1, _) =>
      (finishResponse (responses 1),
        [req0, { token := st1.access_token, payload := payload }], st1)
  else
    (finishResponse (responses 0), [req0], st)

/-- Validity predicate written from C3's words in the spec: "true iff a
TokenSet is held and the current time is strictly before its expiry
instant".  Compared against the code's `need_login`. -/
def isValidSpec (st : TokenDict) (now : Int) : Bool :=
  !TokenDict.isEmpty st && decide (now < st.expires_at.getD 0)

/-!  Helper lemmas about the character-level string model. -/

/-- Shifting a lower-case letter code down by 32 lands on a valid character
with that exact code. -/
lemma char_ofNat_sub32_toNat (n : Nat) (h1 : 97 ≤ n) (h2 : n ≤ 122) :
    (Char.ofNat (n - 32)).toNat = n - 32 := by
  interval_cases n <;> decide

/-- Python `upper()` is idempotent on characters. -/
lemma pyCharUpper_idem (c : Char) :
    pyCharUpper (pyCharUpper c) = pyCharUpper c := by
  by_cases h : 97 ≤ c.toNat ∧ c.toNat ≤ 122
  · have ht := char_ofNat_sub32_toNat c.toNat h.1 h.2
    simp only [pyCharUpper, if_pos h, ht]
    rw [if_neg (by omega)]
  · simp only [pyCharUpper, if_neg h]

/-- Upper-casing does not create or destroy whitespace. -/
lemma isWS_pyCharUpper (c : Char) : isWS (pyCharUpper c) = isWS c := by
  by_cases h : 97 ≤ c.toNat ∧ c.toNat ≤ 122
  · have ht := char_ofNat_sub32_toNat c.toNat h.1 h.2
    have h1 : isWS (pyCharUpper c) = false := by
      simp only [pyCharUpper, if_pos h, isWS, ht, decide_eq_false_iff_not]
      omega
    have h2 : isWS c = false := by
      simp only [isWS, decide_eq_false_iff_not]
      omega
    rw [h1, h2]
  · simp only [pyCharUpper, if_neg h]

/-- Dropping leading whitespace commutes with upper-casing. -/
lemma dropWhile_map_pyCharUpper (l : List Char) :
    (l.map pyCharUpper).dropWhile isWS = (l.dropWhile isWS).map pyCharUpper := by
  induction l with
  | nil => rfl
  | cons a t ih =>
    simp only [List.map_cons, List.dropWhile_cons, isWS_pyCharUpper]
    by_cases h : isWS a
    · simp [h, ih]
    · simp [h]

/-- Stripping commutes with upper-casing. -/
lemma stripChars_map_pyCharUpper (l : List Char) :
    stripChars (l.map pyCharUpper) = (stripChars l).map pyCharUpper := by
  unfold stripChars
  rw [dropWhile_map_pyCharUpper, ← List.map_reverse, dropWhile_map_pyCharUpper,
    ← List.map_reverse]

/-- The currency lookup key `strip().upper()` is unchanged when the raw
value is upper-cased first. -/
lemma pyUpper_key_stable (raw : String) :
    pyUpper (pyStrip (pyUpper raw)) = pyUpper (pyStrip raw) := by
  unfold pyUpper pyStrip
  simp only
  rw [stripChars_map_pyCharUpper]
  congr 1
  simp only [List.map_map]
  apply List.map_congr_left
  intro c _
  exact pyCharUpper_idem c

/-!  Helper lemmas about `_parse_mapping`. -/

/-- The `bad` list built by the loop consists of exactly the numbered lines
the loop body rejects, in order. -/
lemma parseMappingGo_snd (u : Bool) (lines : List (Nat × String))
    (m : List (String × String)) (bad : List (Nat × String)) :
    (parseMappingGo u lines m bad).2 =
      bad ++ lines.filter (fun p => isRejectLine u p.2) := by
  induction lines generalizing m bad with
  | nil => simp [parseMappingGo]
  | cons p rest ih =>
    obtain ⟨i, line⟩ := p
    simp only [parseMappingGo]
    cases hcl : classifyLine u line with
    | skip =>
      rw [ih]
      simp [List.filter_cons, isRejectLine, hcl]
    | accept k v =>
      rw [ih]
      simp [List.filter_cons, isRejectLine, hcl]
    | reject =>
      rw [ih]
      simp [List.filter_cons, isRejectLine, hcl]

/-- Filtering by a predicate on the line text only is unaffected by line
numbering. -/
lemma filter_enumFrom_length {α : Type} (q : α → Bool) (l : List α) (n : Nat) :
    ((List.enumFrom n l).filter (fun p => q p.2)).length = (l.filter q).length := by
  induction l generalizing n with
  | nil => rfl
  | cons a t ih =>
    by_cases h : q a <;>
      simp [List.enumFrom, List.filter_cons, h, ih]

/-- Every non-skipped line is classified as exactly one of accepted or
rejected. -/
lemma accept_reject_partition (u : Bool) (l : List String) :
    (l.filter (isAcceptLine u)).length + (l.filter (isRejectLine u)).length
      = (l.filter (isRelevantLine u)).length := by
  induction l with
  | nil => rfl
  | cons a t ih =>
    cases hcl : classifyLine u a <;>
      simp [List.filter_cons, isAcceptLine, isRejectLine, isRelevantLine, hcl] <;>
      omega

/-- After `m[k] = v`, looking up `k` yields `v`. -/
lemma dictGet_insert_self (m : List (String × String)) (k v : String) :
    dictGet (dictInsert m k v) k = some v := by
  induction m with
  | nil => simp [dictInsert, dictGet, List.find?]
  | cons p rest ih =>
    by_cases h : p.1 == k
    · simp [dictInsert, h, dictGet, List.find?]
    · simp only [dictInsert, h, if_false]
      simp only [dictGet, List.find?, h] at ih ⊢
      exact ih

/-- Inserting never removes a present key. -/
lemma dictGet_insert_mono (m : List (String × String)) (k v k' : String)
    (h : (dictGet m k').isSome = true) :
    (dictGet (dictInsert m k v) k').isSome = true := by
  induction m with
  | nil => simp [dictGet, List.find?] at h
  | cons p rest ih =>
    by_cases hk : p.1 == k
    · by_cases hk' : k == k'
      · simp [dictInsert, hk, dictGet, List.find?, hk']
      · simp only [dictInsert, hk, if_true]
        have hpk' : (p.1 == k') = false := by
          have h1 : p.1 = k := eq_of_beq hk
          have h2 : ¬(k = k') := by
            intro he
            exact hk' (by simp [he])
          subst h1
          simp [h2]
        simp only [dictGet, List.find?, hk', hpk'] at h ⊢
        exact h
    · by_cases hk' : p.1 == k'
      · simp [dictInsert, hk, dictGet, List.find?, hk']
      · simp only [dictInsert, hk, if_false]
        simp only [dictGet, List.find?, hk'] at h ⊢
        exact ih h

/-- The parse loop never removes a key already present in the mapping. -/
lemma parseMappingGo_keys (u : Bool) (lines : List (Nat × String))
    (m : List (String × String)) (bad : List (Nat × String)) (k : String)
    (h : (dictGet m k).isSome = true) :
    (dictGet (parseMappingGo u lines m bad).1 k).isSome = true := by
  induction lines generalizing m bad with
  | nil => simpa [parseMappingGo] using h
  | cons p rest ih =>
    obtain ⟨i, line⟩ := p
    simp only [parseMappingGo]
    cases hcl : classifyLine u line with
    | skip => exact ih m bad h
    | accept k2 v2 => exact ih _ bad (dictGet_insert_mono m k2 v2 k h)
    | reject => exact ih m _ h

/-- Every accepted line's key is present in the final mapping. -/
lemma parseMappingGo_accept_key (u : Bool) (lines : List (Nat × String))
    (m : List (String × String)) (bad : List (Nat × String)) :
    ∀ p ∈ lines, ∀ k v, classifyLine u p.2 = LineClass.accept k v →
      (dictGet (parseMappingGo u lines m bad).1 k).isSome = true := by
  induction lines generalizing m bad with
  | nil => intro p hp; cases hp
  | cons q rest ih =>
    intro p hp k v hcl
    obtain ⟨i, line⟩ := q
    rcases List.mem_cons.mp hp with h1 | h2
    · subst h1
      simp only at hcl
      simp only [parseMappingGo, hcl]
      apply parseMappingGo_keys
      rw [dictGet_insert_self]
      rfl
    · simp only [parseMappingGo]
      cases hc2 : classifyLine u line with
      | skip => exact ih m bad p h2 k v hcl
      | accept k2 v2 => exact ih _ bad p h2 k v hcl
      | reject => exact ih m _ p h2 k v hcl

/-!  Claim theorems. -/

/-- C1: on a submission whose first create-entry POST returns 401 and whose
token refresh succeeds, exactly one retry is issued — the trace of POSTs is
precisely the original request followed by one request with the refreshed
token and the identical payload — and the second response decides the
submission: a success status is returned as the success result, while a
second 401 fails the submission as the raised 401 HTTP error (the spec's
`PostError.Unauthorized`), with no third attempt. -/
theorem submit_retry_on_401 {α : Type} (payload : α) (now : Int)
    (tokResp : TokenResp) (st : TokenDict) (responses : Nat → HttpResp)
    (h401 : (responses 0).status = 401)
    (href : (refresh_access_token now tokResp st).2 = RefreshOutcome.refreshed) :
    (submitEntry payload now tokResp st responses).2.1 =
      [{ token := st.access_token, payload := payload },
       { token := (refresh_access_token now tokResp st).1.access_token,
         payload := payload }] ∧
    ((responses 1).status < 400 →
      (submitEntry payload now tokResp st responses).1 =
        SubmitResult.success (responses 1).body) ∧
    ((responses 1).status = 401 →
      (submitEntry payload now tokResp st responses).1 =
        SubmitResult.httpError 401) := by
  rcases hr : refresh_access_token now tokResp st with ⟨st1, out⟩
  rw [hr] at href
  simp only at href
  subst href
  unfold submitEntry
  rw [if_pos h401, hr]
  refine ⟨rfl, ?_, ?_⟩
  · intro hlt
    simp only
    unfold finishResponse
    rw [if_neg (by omega), if_neg (by simp [raisesStatus]; omega)]
  · intro h1
    simp only
    unfold finishResponse
    rw [h1]
    rfl

/-- C1 witness: a concrete 401-then-201 run retries exactly once with the
refreshed token and the same payload, and returns the 201 body. -/
theorem submit_retry_on_401_witness :
    (submitEntry "p" 0 ⟨200, { access_token := some "new" }⟩
        { access_token := some "old", refresh_token := some "r" }
        (fun n => if n = 0 then ⟨401, ""⟩ else ⟨201, "ok"⟩)).2.1 =
      [⟨some "old", "p"⟩, ⟨some "new", "p"⟩] ∧
    (submitEntry "p" 0 ⟨200, { access_token := some "new" }⟩
        { access_token := some "old", refresh_token := some "r" }
        (fun n => if n = 0 then ⟨401, ""⟩ else ⟨201, "ok"⟩)).1 =
      SubmitResult.success "ok" := by
  have h := submit_retry_on_401 "p" 0 ⟨200, { access_token := some "new" }⟩
    { access_token := some "old", refresh_token := some "r" }
    (fun n => if n = 0 then ⟨401, ""⟩ else ⟨201, "ok"⟩) (by decide) (by decide)
  exact ⟨h.1, h.2.1 (by decide)⟩

/-- C2 counterexample: with a held TokenSet but no refresh token, the code's
`refresh_access_token` returns silently — outcome `noop`, stored tokens
unchanged — whereas the claim requires it to fail with
`AuthError.NoRefreshToken`.  No error of any kind is produced. -/
theorem refresh_no_token_counterexample :
    refresh_access_token 0 ⟨200, { access_token := some "n" }⟩
        { access_token := some "tok", expires_at := some 1000 } =
      ({ access_token := some "tok", expires_at := some 1000 },
       RefreshOutcome.noop) := by
  decide

/-- C2 amended: `refresh()` is a silent no-op (no error, prior TokenSet
intact) when no usable refresh token is held; it fails by raising the HTTP
error (the spec's `AuthError.RefreshFailed`) on a non-success status from
the token endpoint; the stored TokenSet is replaced whole-value by the
response tokens on success; and on every outcome other than a successful
refresh the prior TokenSet is left intact. -/
theorem refresh_behavior (now : Int) (resp : TokenResp) (st : TokenDict) :
    ((refresh_access_token now resp st).2 ≠ RefreshOutcome.refreshed →
      (refresh_access_token now resp st).1 = st) ∧
    (truthyStr st.refresh_token = false →
      refresh_access_token now resp st = (st, RefreshOutcome.noop)) ∧
    (truthyStr st.refresh_token = true → raisesStatus resp.status = true →
      refresh_access_token now resp st =
        (st, RefreshOutcome.raised resp.status)) ∧
    (truthyStr st.refresh_token = true → raisesStatus resp.status = false →
      refresh_access_token now resp st =
        (save_tokens now resp.tokens, RefreshOutcome.refreshed)) := by
  refine ⟨?_, ?_, ?_, ?_⟩
  · intro hne
    by_cases h1 : truthyStr st.refresh_token
    · by_cases h2 : raisesStatus resp.status
      · simp [refresh_access_token, h1, h2]
      · exfalso
        apply hne
        simp [refresh_access_token, h1, h2]
    · simp [refresh_access_token, h1]
  · intro h1
    simp [refresh_access_token, h1]
  · intro h1 h2
    simp [refresh_access_token, h1, h2]
  · intro h1 h2
    simp [refresh_access_token, h1, h2]

/-- C2 witness: a concrete successful refresh replaces the stored tokens by
the freshly stamped response tokens. -/
theorem refresh_behavior_witness :
    refresh_access_token 5 ⟨200, { access_token := some "n" }⟩
        { refresh_token := some "r" } =
      (save_tokens 5 { access_token := some "n" }, RefreshOutcome.refreshed) := by
  exact (refresh_behavior 5 ⟨200, { access_token := some "n" }⟩
    { refresh_token := some "r" }).2.2.2 (by decide) (by decide)

/-- C3 counterexample: at exactly the stored expiry instant (T = 0,
`expires_in = 3600`, expiry 3570) the code still treats the token as valid
(`need_login = false`), while the spec's "strictly before the expiry
instant" predicate says it is invalid — so validity is not "strictly
before" as claimed. -/
theorem token_validity_counterexample :
    need_login (save_tokens 0 { expires_in := some 3600 }) 3570 = false ∧
    isValidSpec (save_tokens 0 { expires_in := some 3600 }) 3570 = false := by
  decide

/-- C3 amended: a TokenSet saved at time T with declared lifetime
`expires_in` stores expiry instant T + expires_in − 30; validity (the
negation of `need_login`) holds iff a TokenSet is held and the current time
is at or before (not strictly before) that expiry instant; in particular,
for `expires_in = 3600` the token is invalid at T+3571s and valid at
T+3569s. -/
theorem token_expiry_and_validity :
    (∀ (freshTime ei : Int) (toks : TokenDict), toks.expires_in = some ei →
      (save_tokens freshTime toks).expires_at = some (freshTime + ei - 30)) ∧
    (∀ (st : TokenDict) (now e : Int), st.expires_at = some e →
      (need_login st now = false ↔
        (TokenDict.isEmpty st = false ∧ now ≤ e))) ∧
    need_login (save_tokens 0 { expires_in := some 3600 }) 3571 = true ∧
    need_login (save_tokens 0 { expires_in := some 3600 }) 3569 = false := by
  refine ⟨?_, ?_, by decide, by decide⟩
  · intro freshTime ei toks h
    simp [save_tokens, h]
  · intro st now e h
    simp [need_login, h]

/-- C3 witness: saving at time 5 with lifetime 3600 stores expiry 3575. -/
theorem token_expiry_and_validity_witness :
    (save_tokens 5 { expires_in := some 3600 }).expires_at =
      some (5 + 3600 - 30) := by
  exact token_expiry_and_validity.1 5 3600 { expires_in := some 3600 } rfl

/-- C4: `resolve_account_id` returns the mapped identifier when the
(whitespace-trimmed) raw value is a mapping key, otherwise parses it as a
base-10 integer; a value that is neither a key nor an integer fails with
the `int()` ValueError (the spec's `NotAnIdentifier`), and a parsed integer
≤ 0 fails with the positivity ValueError (the spec's `NonPositive`);
concretely, with no mapping, "abc" is NotAnIdentifier, "-5" is NonPositive,
and "77" resolves to 77. -/
theorem resolveAccount_contract :
    (∀ (m : List (String × String)) (raw v : String) (n : Int),
      pyStrip raw = raw → dictGet m raw = some v → parsePyInt v = some n →
      resolve_account_id m raw = Except.ok n) ∧
    (∀ (m : List (String × String)) (raw : String) (n : Int),
      pyStrip raw = raw → dictGet m raw = none → parsePyInt raw = some n →
      0 < n → resolve_account_id m raw = Except.ok n) ∧
    (∀ (m : List (String × String)) (raw : String) (n : Int),
      pyStrip raw = raw → dictGet m raw = none → parsePyInt raw = some n →
      n ≤ 0 → resolve_account_id m raw = Except.error ResolveErr.nonPositive) ∧
    (∀ (m : List (String × String)) (raw : String),
      pyStrip raw = raw → dictGet m raw = none → parsePyInt raw = none →
      resolve_account_id m raw = Except.error (ResolveErr.notAnInt raw)) ∧
    resolve_account_id [] "abc" = Except.error (ResolveErr.notAnInt "abc") ∧
    resolve_account_id [] "-5" = Except.error ResolveErr.nonPositive ∧
    resolve_account_id [] "77" = Except.ok 77 := by
  refine ⟨?_, ?_, ?_, ?_, by decide, by decide, by decide⟩
  · intro m raw v n hs hm hp
    simp [resolve_account_id, resolveCore, hs, hm, hp]
  · intro m raw n hs hm hp hpos
    simp [resolve_account_id, resolveCore, hs, hm, hp]
    omega
  · intro m raw n hs hm hp hle
    simp [resolve_account_id, resolveCore, hs, hm, hp, hle]
  · intro m raw hs hm hp
    simp [resolve_account_id, resolveCore, hs, hm, hp]

/-- C4 witness: with "1020" mapped to "55", resolving "1020" returns 55. -/
theorem resolveAccount_contract_witness :
    resolve_account_id [("1020", "55")] "1020" = Except.ok 55 := by
  exact resolveAccount_contract.1 [("1020", "55")] "1020" "55" 55
    (by decide) (by decide) (by decide)

/-- C5: `_parse_mapping` is total by construction; the rejected list is
exactly the non-blank, non-comment lines that fail the two-nonempty-token
test, reported with line number and original text; every accepted line's
key ends up present in the mapping; and the number of accepted lines plus
the number of rejected lines equals the number of non-blank, non-comment
input lines. -/
theorem parse_mapping_accounting (text : String) (u : Bool) :
    ((pySplitlines text).filter (isAcceptLine u)).length
        + (parse_mapping text u).2.length
      = ((pySplitlines text).filter (isRelevantLine u)).length ∧
    (parse_mapping text u).2 =
      (List.enumFrom 1 (pySplitlines text)).filter (fun p => isRejectLine u p.2) ∧
    (∀ p ∈ List.enumFrom 1 (pySplitlines text), ∀ k v,
      classifyLine u p.2 = LineClass.accept k v →
      (dictGet (parse_mapping text u).1 k).isSome = true) := by
  refine ⟨?_, ?_, ?_⟩
  · unfold parse_mapping
    rw [parseMappingGo_snd]
    simp only [List.nil_append]
    rw [filter_enumFrom_length]
    exact accept_reject_partition u (pySplitlines text)
  · unfold parse_mapping
    rw [parseMappingGo_snd]
    simp
  · intro p hp k v hcl
    unfold parse_mapping
    exact parseMappingGo_accept_key u _ [] [] p hp k v hcl

/-- C5 witness: for the two-line text "1020=77\nbad", one line is accepted,
one rejected (1 + 1 = 2 relevant lines), and key "1020" is present. -/
theorem parse_mapping_accounting_witness :
    (1 : Nat) + (parse_mapping "1020=77\nbad" false).2.length = 2 ∧
    (dictGet (parse_mapping "1020=77\nbad" false).1 "1020").isSome = true := by
  constructor
  · have h := (parse_mapping_accounting "1020=77\nbad" false).1
    simpa using h
  · exact (parse_mapping_accounting "1020=77\nbad" false).2.2 (1, "1020=77")
      (by decide) "1020" "77" (by decide)

/-- C6: date normalization — a structured date is returned in ISO form, and
a string, after `/` and `.` are replaced by `-`, must match the strict
`YYYY-MM-DD` pattern: "2024/01/31", "2024.01.31" and "2024-01-31" all
normalize to "2024-01-31", while "31-01-2024" fails with the InvalidDate
error. -/
theorem date_normalization :
    normalize_iso_date (DateVal.raw "2024/01/31") = Except.ok "2024-01-31" ∧
    normalize_iso_date (DateVal.raw "2024.01.31") = Except.ok "2024-01-31" ∧
    normalize_iso_date (DateVal.raw "2024-01-31") = Except.ok "2024-01-31" ∧
    normalize_iso_date (DateVal.raw "31-01-2024") =
      Except.error (DateErr.invalidDate "31-01-2024") ∧
    (∀ y m d : Nat, normalize_iso_date (DateVal.structured y m d) =
      Except.ok (isoformat y m d)) := by
  exact ⟨by decide, by decide, by decide, by decide, fun _ _ _ => rfl⟩

/-- C7: a first create-entry response with status 429 ends the submission
immediately as the rate-limited stop, with exactly one POST issued — zero
automatic retries. -/
theorem submit_429_no_retry {α : Type} (payload : α) (now : Int)
    (tokResp : TokenResp) (st : TokenDict) (responses : Nat → HttpResp)
    (h : (responses 0).status = 429) :
    submitEntry payload now tokResp st responses =
      (SubmitResult.rateLimited,
       [{ token := st.access_token, payload := payload }], st) := by
  unfold submitEntry
  rw [if_neg (by rw [h]; omega)]
  unfold finishResponse
  rw [if_pos h]

/-- C7 witness: a concrete 429 run stops as rate-limited after one POST. -/
theorem submit_429_no_retry_witness :
    submitEntry "p" 0 ⟨200, {}⟩ { access_token := some "old" }
        (fun _ => ⟨429, ""⟩) =
      (SubmitResult.rateLimited, [⟨some "old", "p"⟩],
       { access_token := some "old" }) := by
  exact submit_429_no_retry "p" 0 ⟨200, {}⟩ { access_token := some "old" }
    (fun _ => ⟨429, ""⟩) (by decide)

/-- C8: `resolve_currency_id` is case-insensitive in its lookup key — for
every mapping and raw value it returns the same result on the raw value and
on its upper-cased form; in particular "chf" and "CHF" resolve
identically. -/
theorem resolve_currency_case_insensitive (m : List (String × String))
    (raw : String) :
    resolve_currency_id m raw = resolve_currency_id m (pyUpper raw) := by
  unfold resolve_currency_id
  rw [pyUpper_key_stable]

/-- C9: when the lookup key is present in the account (or currency)
mapping, the resolver returns `int(mapped value)` with no positivity check
— a mapping entry with value "-5" is returned as -5 — and the NonPositive
error can only arise on the fallback path, i.e. it implies the key was
absent from the mapping. -/
theorem resolve_mapped_unchecked :
    (∀ (m : List (String × String)) (raw v : String) (n : Int),
      dictGet m (pyStrip raw) = some v → parsePyInt v = some n →
      resolve_account_id m raw = Except.ok n) ∧
    (∀ (m : List (String × String)) (raw v : String) (n : Int),
      dictGet m (pyUpper (pyStrip raw)) = some v → parsePyInt v = some n →
      resolve_currency_id m raw = Except.ok n) ∧
    (∀ (m : List (String × String)) (raw : String),
      resolve_account_id m raw = Except.error ResolveErr.nonPositive →
      dictGet m (pyStrip raw) = none) ∧
    (∀ (m : List (String × String)) (raw : String),
      resolve_currency_id m raw = Except.error ResolveErr.nonPositive →
      dictGet m (pyUpper (pyStrip raw)) = none) ∧
    resolve_account_id [("X", "-5")] "X" = Except.ok (-5) ∧
    resolve_currency_id [("CHF", "0")] "chf" = Except.ok 0 := by
  refine ⟨?_, ?_, ?_, ?_, by decide, by decide⟩
  · intro m raw v n hm hp
    simp [resolve_account_id, resolveCore, hm, hp]
  · intro m raw v n hm hp
    simp [resolve_currency_id, resolveCore, hm, hp]
  · intro m raw h
    cases hm : dictGet m (pyStrip raw) with
    | none => rfl
    | some v =>
      exfalso
      unfold resolve_account_id resolveCore at h
      rw [hm] at h
      simp only at h
      cases hp : parsePyInt v with
      | some n => rw [hp] at h; simp at h
      | none => rw [hp] at h; simp at h
  · intro m raw h
    cases hm : dictGet m (pyUpper (pyStrip raw)) with
    | none => rfl
    | some v =>
      exfalso
      unfold resolve_currency_id resolveCore at h
      rw [hm] at h
      simp only at h
      cases hp : parsePyInt v with
      | some n => rw [hp] at h; simp at h
      | none => rw [hp] at h; simp at h

/-- C9 witness: a mapping entry with the non-positive value "-7" is
returned as -7 with no positivity check. -/
theorem resolve_mapped_unchecked_witness :
    resolve_account_id [("A", "-7")] "A" = Except.ok (-7) := by
  exact resolve_mapped_unchecked.1 [("A", "-7")] "A" "-7" (-7)
    (by decide) (by decide)

/-- C10: when the token-endpoint response lacks `expires_in`, `save_tokens`
defaults the declared lifetime to 3600 seconds, storing expiry
now + 3600 − 30. -/
theorem save_tokens_default_lifetime (now : Int) (toks : TokenDict)
    (h : toks.expires_in = none) :
    (save_tokens now toks).expires_at = some (now + 3600 - 30) := by
  simp [save_tokens, h]

/-- C10 witness: saving the empty token dict at time 7 stores expiry
7 + 3600 − 30. -/
theorem save_tokens_default_lifetime_witness :
    (save_tokens 7 {}).expires_at = some (7 + 3600 - 30) := by
  exact save_tokens_default_lifetime 7 {} rfl
